import Mathlib

/-!
Verification development for the real-estate sales-qualification agent
(`Agente-Inmobiliario`).  The Python modules under `src/` are shallowly
embedded as executable Lean definitions:

* `src/tools/crm.py` — lead qualification: fill-only preference merging,
  score recomputation, tier labelling, lifecycle status transitions and
  follow-up task creation (`update_lead_from_extraction`,
  `calculate_lead_score`, `get_score_label`).
* `src/tools/ai_engine.py` — the tool-calling orchestration loop
  (`_generate_with_tools`) and the action dispatch table
  (`_execute_tool_call`).
* `src/tools/nurturing_engine.py` — the scheduled nurturing evaluator
  (`process_nurturing`, `_evaluate_nurturing_rules`,
  `_execute_nurturing_action`).
* `src/tools/database.py` — store adapters that catch every underlying
  client exception and degrade to `None` / `[]`.
* `src/tools/conversation_manager.py` — the per-(lead, channel)
  conversation cache.

External collaborators (the Supabase client, the LLM provider, Twilio,
SendGrid) are modelled as oracles: explicitly passed functions or
`Except`-valued call outcomes.  Python exceptions are modelled with
`Except`; Python `None` with `Option`; Python truthiness of strings,
numbers and options is made explicit (`truthyStr`, `truthyInt`).
Numeric JSON payload values (budgets, prices) are modelled as `Int`:
the embedded claims never do float arithmetic on them, only presence
and truthiness tests.
-/

namespace Agente

/-- Embedding of `LeadStatus` enum from `src/models/database_models.py`. -/
inductive LeadStatus where
  | nuevo | contactado | cualificado | visitaAgendada
  | negociacion | cerradoGanado | cerradoPerdido | inactivo
deriving DecidableEq, Repr

/-- Embedding of `LeadScore` enum (qualitative tier) from `src/models/database_models.py`. -/
inductive LeadScore where
  | curioso | interesado | caliente | listo
deriving DecidableEq, Repr

/-- Embedding of `LeadPreferences` pydantic model: every field optional and
independently nullable. -/
structure LeadPreferences where
  operation : Option String := none
  property_type : Option String := none
  zone : Option String := none
  min_budget : Option Int := none
  max_budget : Option Int := none
  min_sqm : Option Int := none
  max_sqm : Option Int := none
  bedrooms : Option Int := none
  bathrooms : Option Int := none
  parking : Option Bool := none
  urgency : Option String := none
  purpose : Option String := none
  notes : Option String := none
deriving DecidableEq, Repr

/-- The fields of the `Lead` pydantic model that the qualification engine
reads or writes (identity/timestamp fields are irrelevant to the claims). -/
structure Lead where
  name : Option String := none
  status : LeadStatus := .nuevo
  score : Int := 0
  score_label : LeadScore := .curioso
  preferences : LeadPreferences := {}
  total_interactions : Int := 0
deriving DecidableEq, Repr

/-- Extraction result dict returned by `extract_lead_info`.  `nonempty`
models Python truthiness of the dict itself (`if extracted:`); a field
that is `none` models an absent key or an explicit JSON `null` (the two
are indistinguishable to every `.get` in the scoring code). -/
structure Extraction where
  nonempty : Bool := true
  operation : Option String := none
  property_type : Option String := none
  zone : Option String := none
  min_budget : Option Int := none
  max_budget : Option Int := none
  bedrooms : Option Int := none
  bathrooms : Option Int := none
  min_sqm : Option Int := none
  parking : Option Bool := none
  urgency : Option String := none
  purpose : Option String := none
  name : Option String := none
  interest_level : Option String := none
  wants_visit : Bool := false
  wants_human_agent : Bool := false
deriving DecidableEq, Repr

/-- Python truthiness of an optional string (`None` and `""` are falsy). -/
def truthyStr : Option String → Bool
  | none => false
  | some s => s != ""

/-- Python truthiness of an optional number (`None` and `0` are falsy). -/
def truthyInt : Option Int → Bool
  | none => false
  | some n => n != 0

/-- Embedding of `LEAD_SCORE_COLD` from `src/config.py`. -/
def LEAD_SCORE_COLD : Int := 25
/-- Embedding of `LEAD_SCORE_WARM` from `src/config.py`. -/
def LEAD_SCORE_WARM : Int := 50
/-- Embedding of `LEAD_SCORE_HOT` from `src/config.py`. -/
def LEAD_SCORE_HOT : Int := 75
/-- Embedding of `LEAD_SCORE_READY` from `src/config.py`. -/
def LEAD_SCORE_READY : Int := 100

/-- Embedding of `interest_points.get(interest, 0)` — the interest-level bonus table in
`calculate_lead_score`; any unknown (or null) level maps to the default 0. -/
def interestPoints (interest : String) : Int :=
  if interest = "bajo" then 0
  else if interest = "medio" then 5
  else if interest = "alto" then 10
  else if interest = "muy alto" then 15
  else 0

/-- Embedding of `calculate_lead_score(lead, extracted)` from `src/tools/crm.py`
(lines 152–195).  The `extracted` argument is `Option` because the Python
parameter defaults to `None`; an empty dict is falsy, hence the
`e.nonempty` guard. -/
def calculate_lead_score (lead : Lead) (extracted : Option Extraction) : Int :=
  let prefs := lead.preferences
  let score : Int :=
    (if truthyStr prefs.operation then 10 else 0)
    + (if truthyStr prefs.property_type then 10 else 0)
    + (if truthyStr prefs.zone then 15 else 0)
    + (if truthyInt prefs.max_budget || truthyInt prefs.min_budget then 15 else 0)
    + (if truthyInt prefs.bedrooms then 5 else 0)
    + (if truthyStr prefs.urgency then
        10 + (if prefs.urgency = some "inmediata" ∨ prefs.urgency = some "1-3 meses"
              then 10 else 0)
      else 0)
    + (if truthyStr prefs.purpose then 5 else 0)
    + (if truthyStr lead.name then 5 else 0)
    + (match extracted with
      | some e =>
        if e.nonempty then
          interestPoints (e.interest_level.getD "bajo")
          + (if e.wants_visit then 15 else 0)
        else 0
      | none => 0)
    + (if lead.total_interactions ≥ 3 then 5 else 0)
    + (if lead.total_interactions ≥ 5 then 5 else 0)
  min score 100

/-- Embedding of `get_score_label(score)` from `src/tools/crm.py` (lines 198–207). -/
def get_score_label (score : Int) : LeadScore :=
  if score ≤ LEAD_SCORE_COLD then .curioso
  else if score ≤ LEAD_SCORE_WARM then .interesado
  else if score ≤ LEAD_SCORE_HOT then .caliente
  else .listo

/-- One entry of the fill-only merge in `update_lead_from_extraction`:
`if value is not None and getattr(prefs, k) is None: setattr(...)`. -/
def fillField {α : Type} (cur new : Option α) : Option α :=
  match new, cur with
  | some v, none => some v
  | _, _ => cur

/-- The name merge in `update_lead_from_extraction` (lines 116–119):
`if extracted_name and not lead.name` — truthiness on both sides. -/
def mergeName (cur new : Option String) : Option String :=
  if truthyStr new && !(truthyStr cur) then new else cur

/-- Result of one qualification pass: the updated lead plus the
side-effect record (which internal tasks the pass created). -/
structure UpdateResult where
  lead : Lead
  hotTaskCreated : Bool
  handoffTaskCreated : Bool
deriving DecidableEq, Repr

/-- Embedding of `update_lead_from_extraction(lead, extracted)` from `src/tools/crm.py`
(lines 86–149): fill-only merge of the eleven mapped preference fields and
the name, score recomputation on the merged lead, tier relabelling, status
auto-advance out of `nuevo`, and task creation (`_create_hot_lead_task`
whenever the new score reaches `LEAD_SCORE_HOT`, `_create_human_handoff_task`
whenever the extraction requests a human). -/
def update_lead_from_extraction (lead : Lead) (extracted : Extraction) : UpdateResult :=
  let prefs := lead.preferences
  let prefs : LeadPreferences :=
    { prefs with
      operation := fillField prefs.operation extracted.operation
      property_type := fillField prefs.property_type extracted.property_type
      zone := fillField prefs.zone extracted.zone
      min_budget := fillField prefs.min_budget extracted.min_budget
      max_budget := fillField prefs.max_budget extracted.max_budget
      bedrooms := fillField prefs.bedrooms extracted.bedrooms
      bathrooms := fillField prefs.bathrooms extracted.bathrooms
      min_sqm := fillField prefs.min_sqm extracted.min_sqm
      parking := fillField prefs.parking extracted.parking
      urgency := fillField prefs.urgency extracted.urgency
      purpose := fillField prefs.purpose extracted.purpose }
  let name := mergeName lead.name extracted.name
  let merged : Lead := { lead with name := name, preferences := prefs }
  let score := calculate_lead_score merged (some extracted)
  let label := get_score_label score
  let status :=
    if score ≥ LEAD_SCORE_HOT ∧ merged.status = .nuevo then LeadStatus.cualificado
    else if score ≥ LEAD_SCORE_WARM ∧ merged.status = .nuevo then LeadStatus.contactado
    else merged.status
  { lead := { merged with score := score, score_label := label, status := status }
    hotTaskCreated := decide (score ≥ LEAD_SCORE_HOT)
    handoffTaskCreated := extracted.wants_human_agent }

/-- A sequence of qualification passes (`update_lead_from_extraction`
folded over a list of extraction results). -/
def applyExtractions (lead : Lead) (es : List Extraction) : Lead :=
  es.foldl (fun l e => (update_lead_from_extraction l e).lead) lead

/-- A lead with every scored field already known: its recomputed score is
95 (≥ hot) even on an extraction pass that contributes nothing new. -/
def hotLead : Lead :=
  { name := some "Ana"
    status := .cualificado
    score := 95
    score_label := .listo
    preferences :=
      { operation := some "comprar"
        property_type := some "piso"
        zone := some "Centro"
        max_budget := some 200000
        bedrooms := some 3
        urgency := some "inmediata"
        purpose := some "primera vivienda" }
    total_interactions := 5 }

/-- The empty extraction dict (`{}` — falsy in Python), as produced when
JSON parsing of the extractor reply fails. -/
def emptyExtraction : Extraction := { nonempty := false }

/-- A brand-new lead with nothing known. -/
def freshLead : Lead := {}

/-- An extraction carrying only transient engagement signals. -/
def highInterestExtraction : Extraction :=
  { interest_level := some "muy alto", wants_visit := true }

/-- A lead already beyond the initial lifecycle state. -/
def busyLead : Lead := { status := .negociacion }

/-- A lead with every preference field and the name already set. -/
def fullLead : Lead :=
  { name := some "Luis"
    status := .contactado
    score := 90
    score_label := .listo
    preferences :=
      { operation := some "alquilar"
        property_type := some "casa"
        zone := some "Triana"
        min_budget := some 500
        max_budget := some 900
        min_sqm := some 60
        max_sqm := some 120
        bedrooms := some 2
        bathrooms := some 1
        parking := some true
        urgency := some "sin prisa"
        purpose := some "inversión"
        notes := some "quiere terraza" }
    total_interactions := 4 }

/-- An extraction that returns a different value for every field. -/
def conflictingExtraction : Extraction :=
  { operation := some "comprar"
    property_type := some "piso"
    zone := some "Centro"
    min_budget := some 100
    max_budget := some 200
    bedrooms := some 5
    bathrooms := some 3
    min_sqm := some 80
    parking := some false
    urgency := some "inmediata"
    purpose := some "primera vivienda"
    name := some "Pedro"
    interest_level := some "alto"
    wants_visit := true }

/-! ### `src/tools/ai_engine.py` — action dispatch and the tool-calling loop -/

/-- The argument object of an action request (`arguments` dict after JSON
decoding).  Every key the dispatch reads is optional: `.get(k)` /
`.get(k, default)` accesses are total, while `arguments[k]` accesses raise
`KeyError` when the key is absent. -/
structure ToolArgs where
  zone : Option String := none
  property_type : Option String := none
  max_price : Option Int := none
  bedrooms : Option Int := none
  operation : Option String := none
  reference : Option String := none
  property_reference : Option String := none
  preferred_date : Option String := none
  preferred_time : Option String := none
  client_name : Option String := none
  client_phone : Option String := none
  date : Option String := none
  price : Option Int := none
  down_payment_percent : Option Int := none
  years : Option Int := none
  interest_rate : Option Int := none
  reason : Option String := none
  summary : Option String := none
deriving Repr

/-- The empty arguments dict `{}` (what malformed JSON coalesces to). -/
def emptyToolArgs : ToolArgs := {}

/-- Oracles for the collaborators the dispatch delegates to
(`property_manager`, `scheduler`, `human_handoff`): each is a pure
function of the inputs the handler passes on. -/
structure ToolEnv where
  search : ToolArgs → List String := fun _ => []
  propertyByRef : String → Option String := fun _ => none
  dateTimeValid : String → String → Bool := fun _ _ => false
  scheduleCreatesId : Bool := false
  availableSlots : String → List String := fun _ => []
  slotsText : String → List String → String := fun _ _ => ""
  mortgageText : Int → String := fun _ => ""
  handoffResponse : String → String := fun _ => ""

/-- The fixed fallback returned by `_generate_with_tools` when the round
budget is exhausted without a final text. -/
def stillProcessingFallback : String :=
  "Estoy procesando tu solicitud. ¿Puedes darme un momento? 🙏"

/-- The fixed apologetic message returned on a non-retryable provider
fault. -/
def techDifficultiesMessage : String :=
  "Lo siento, estoy teniendo dificultades técnicas. ¿Podrías intentar de nuevo? 🙏"

/-- Embedding of `_execute_tool_call(name, arguments, lead_context)` from
`src/tools/ai_engine.py` (lines 206–315).  `.ok` is the returned result
string; `.error` models an uncaught Python exception escaping the
dispatch — which happens exactly on the `arguments["reference"]` and
`arguments["price"]` subscript accesses when the key is missing. -/
def execute_tool_call (env : ToolEnv) (name : String) (args : ToolArgs) :
    Except String String :=
  if name = "search_properties" then
    let results := env.search args
    if results.isEmpty then
      .ok "No se encontraron propiedades con esos criterios. Prueba con criterios diferentes."
    else
      let n := results.length
      .ok (String.join (s!"Se encontraron {n} propiedades:\n\n" :: results.map (· ++ "\n")))
  else if name = "get_property_details" then
    match args.reference with
    | none => .error "KeyError: reference"
    | some r =>
      match env.propertyByRef r with
      | none => .ok ("No se encontró la propiedad con referencia " ++ r ++ ".")
      | some p => .ok p
  else if name = "schedule_visit" then
    let dateStr := args.preferred_date.getD ""
    let timeStr := args.preferred_time.getD ""
    let propRef := args.property_reference.getD ""
    if env.dateTimeValid dateStr timeStr then
      if env.scheduleCreatesId then
        .ok ("✅ Visita agendada correctamente:\n📅 Fecha: " ++ dateStr
          ++ "\n🕐 Hora: " ++ timeStr ++ "\n🏠 Propiedad: " ++ propRef
          ++ "\nSe enviarán recordatorios automáticos.")
      else
        .ok "No se pudo agendar la visita. Puede que el horario no esté disponible."
    else
      .ok "Formato de fecha/hora no válido. Usa YYYY-MM-DD y HH:MM."
  else if name = "check_availability" then
    let dateStr := args.date.getD ""
    let slots := env.availableSlots dateStr
    if slots.isEmpty then
      .ok ("No hay horarios disponibles el " ++ dateStr ++ ". Prueba otro día.")
    else
      .ok (env.slotsText dateStr slots)
  else if name = "calculate_mortgage" then
    match args.price with
    | none => .error "KeyError: price"
    | some p => .ok (env.mortgageText p)
  else if name = "transfer_to_human" then
    .ok (env.handoffResponse (args.reason.getD "solicitud_directa"))
  else
    .ok ("Función " ++ name ++ " no implementada.")

/-- One tool call requested by the model: a function name plus the raw
argument payload; `payload = none` models `tool_call.function.arguments`
failing `json.loads`. -/
structure ToolCallReq where
  name : String
  payload : Option ToolArgs

/-- The `json.JSONDecodeError` handler of `_generate_with_tools`
(lines 407–410): a malformed payload coalesces to the empty dict. -/
def decodeArgs : Option ToolArgs → ToolArgs
  | none => {}
  | some a => a

/-- Sequential execution of the tool calls of one round; the first uncaught
exception aborts the whole invocation (there is no try/except around
`_execute_tool_call` in the loop body). -/
def execToolCalls (env : ToolEnv) : List ToolCallReq → Except String Unit
  | [] => .ok ()
  | c :: rest =>
    match execute_tool_call env c.name (decodeArgs c.payload) with
    | .ok _ => execToolCalls env rest
    | .error e => .error e

/-- One reply of the reasoning-service (`client.chat.completions.create`):
a 429 rate-limit exception, any other exception, or a message with its
finish reason, content and requested tool calls. -/
inductive ModelResponse where
  | err429
  | errOther
  | msg (finishToolCalls : Bool) (content : Option String) (tool_calls : List ToolCallReq)

/-- The round loop of `_generate_with_tools` (lines 379–429), with the
reasoning service as an oracle indexed by the number of service calls made
so far.  First component: the returned text (`.error` = an uncaught
exception escaping the loop); second component: total service calls
issued.  A 429 sleeps and consumes a round; another exception returns the
apologetic message; a `tool_calls` finish executes every call and loops;
anything else returns `content or ""`; an exhausted budget returns the
fixed fallback. -/
def generate_with_tools_aux (env : ToolEnv) (oracle : Nat → ModelResponse) :
    Nat → Nat → Except String String × Nat
  | 0, calls => (.ok stillProcessingFallback, calls)
  | fuel + 1, calls =>
    match oracle calls with
    | .err429 => generate_with_tools_aux env oracle fuel (calls + 1)
    | .errOther => (.ok techDifficultiesMessage, calls + 1)
    | .msg ftc content tcs =>
      if ftc && !tcs.isEmpty then
        match execToolCalls env tcs with
        | .ok _ => generate_with_tools_aux env oracle fuel (calls + 1)
        | .error e => (.error e, calls + 1)
      else
        (.ok (content.getD ""), calls + 1)

/-- Embedding of `_generate_with_tools(messages, client, lead_context, max_tool_rounds)`:
run the round loop with the full budget (default 3). -/
def generate_with_tools (env : ToolEnv) (oracle : Nat → ModelResponse)
    (maxRounds : Nat := 3) : Except String String × Nat :=
  generate_with_tools_aux env oracle maxRounds 0

/-- A round "continues" (consumes budget without returning): either a 429
retry or a tool-call round whose executions all succeed. -/
def roundContinues (env : ToolEnv) : ModelResponse → Bool
  | .err429 => true
  | .errOther => false
  | .msg ftc _ tcs =>
    ftc && !tcs.isEmpty
      && (match execToolCalls env tcs with
          | .ok _ => true
          | .error _ => false)

/-- A default collaborator environment. -/
def env0 : ToolEnv := {}

/-- A reasoning-service oracle that requests actions on every round. -/
def alwaysToolsOracle : Nat → ModelResponse :=
  fun _ => .msg true none [⟨"transfer_to_human", none⟩]

/-- A reasoning-service oracle whose single round requests
`get_property_details` with a payload that failed JSON parsing. -/
def badDetailsOracle : Nat → ModelResponse :=
  fun _ => .msg true none [⟨"get_property_details", none⟩]

/-! ### `src/tools/nurturing_engine.py` — the scheduled nurturing evaluator -/

/-- The `last_contact` value of the lead dict as seen by `process_nurturing`:
missing (→ the 999-day sentinel), a string that `datetime.fromisoformat`
rejects (→ `ValueError`, caught by the per-lead handler), or a parsed
timestamp reduced to whole days before now. -/
inductive LastContact where
  | absent
  | malformed
  | daysAgo (d : Int)
deriving DecidableEq, Repr

def isMalformedLastContact : LastContact → Bool
  | .malformed => true
  | _ => false

/-- Embedding of `(now - last_contact).days if last_contact else 999`; `none` models the
`ValueError` raised while parsing a malformed timestamp string. -/
def daysSince : LastContact → Option Int
  | .absent => some 999
  | .malformed => none
  | .daysAgo d => some d

/-- The lead dict fields `process_nurturing` reads (each via `.get` with
the shown default). -/
structure NLead where
  id : String := ""
  phone : String := ""
  email : String := ""
  name : String := ""
  score : Int := 0
  total_interactions : Int := 0
  last_contact : LastContact := .absent
deriving DecidableEq, Repr

/-- The action dict built by `_evaluate_nurturing_rules`. -/
structure NAction where
  typ : String
  channel : String
  template : String
deriving DecidableEq, Repr

/-- Embedding of `_evaluate_nurturing_rules(lead, days_since_contact, score, interactions)`
(lines 115–155): the fixed, ordered rule chain; first match wins. -/
def evaluate_nurturing_rules (days_since_contact score interactions : Int) :
    Option NAction :=
  if score ≥ 60 ∧ days_since_contact ≥ 2 then
    some ⟨"hot_lead_urgency", "whatsapp", "hot_lead"⟩
  else if 30 ≤ score ∧ score < 60 ∧ days_since_contact ≥ 3 then
    some ⟨"warm_lead_nudge", "whatsapp", "warm_nudge"⟩
  else if interactions ≤ 2 ∧ score < 30 ∧ 1 ≤ days_since_contact ∧ days_since_contact ≤ 2 then
    some ⟨"post_first_contact", "whatsapp", "first_followup"⟩
  else if score < 30 ∧ days_since_contact ≥ 7 then
    some ⟨"cold_lead_reactivation", "email", "reactivation"⟩
  else
    none

/-- Delivery collaborators (`send_whatsapp_message`, `send_email`) as
success oracles keyed by destination. -/
structure DeliveryEnv where
  waOk : String → Bool := fun _ => true
  emailOk : String → Bool := fun _ => true

/-- What `_execute_nurturing_action` did for one lead: which channels it
attempted and which attempts failed (each failure is caught by the
per-channel `try/except` and logged with the phone / email). -/
structure DeliveryOutcome where
  waAttempted : Bool
  waFailed : Bool
  emailAttempted : Bool
  emailFailed : Bool
deriving DecidableEq, Repr

/-- Embedding of `phone.startswith("ig:")` — a character-level prefix test (the
byte-level `String.startsWith` does not reduce in the kernel). -/
def strStartsWith (s pre : String) : Bool :=
  pre.data.isPrefixOf s.data

/-- Embedding of `_execute_nurturing_action(lead, action)` (lines 158–195): WhatsApp is
attempted when the channel includes it, the phone is non-empty and not an
Instagram pseudo-number; email when the channel includes it and the email
is non-empty.  Both sends are wrapped in their own `try/except`, so the
function is total and the two attempts are independent. -/
def execute_nurturing_action (env : DeliveryEnv) (lead : NLead) (action : NAction) :
    DeliveryOutcome :=
  let waAtt := (action.channel == "whatsapp" || action.channel == "both")
    && lead.phone != "" && !(strStartsWith lead.phone "ig:")
  let waFail := waAtt && !(env.waOk lead.phone)
  let emAtt := (action.channel == "email" || action.channel == "both")
    && lead.email != ""
  let emFail := emAtt && !(env.emailOk lead.email)
  { waAttempted := waAtt, waFailed := waFail
    emailAttempted := emAtt, emailFailed := emFail }

/-- Per-lead outcome of one `process_nurturing` iteration: the per-lead
`try` caught an exception (only the timestamp parse can raise), no rule
matched, or a rule fired with the recorded delivery outcome. -/
inductive LeadResult where
  | errored
  | noAction
  | acted (action : NAction) (outcome : DeliveryOutcome)
deriving DecidableEq, Repr

/-- The `actions_taken` summary dict of `process_nurturing`. -/
structure NurturingSummary where
  messages_sent : Nat := 0
  emails_sent : Nat := 0
  leads_processed : Nat := 0
  errors : Nat := 0
deriving DecidableEq, Repr

/-- One iteration of the `for lead in leads` loop body. -/
def processOneLead (env : DeliveryEnv) (lead : NLead) : LeadResult :=
  match daysSince lead.last_contact with
  | none => .errored
  | some days =>
    match evaluate_nurturing_rules days lead.score lead.total_interactions with
    | none => .noAction
    | some action => .acted action (execute_nurturing_action env lead action)

/-- Folding one per-lead outcome into the summary counters (delivery
failures are swallowed inside `_execute_nurturing_action` and do not reach
these counters; `errors` counts only leads whose processing raised). -/
def tallyLead (acc : NurturingSummary) (r : LeadResult) : NurturingSummary :=
  match r with
  | .errored => { acc with errors := acc.errors + 1 }
  | .noAction => acc
  | .acted action _ =>
    let acc := { acc with leads_processed := acc.leads_processed + 1 }
    let acc := if action.channel == "whatsapp" || action.channel == "both" then
        { acc with messages_sent := acc.messages_sent + 1 }
      else acc
    if action.channel == "email" || action.channel == "both" then
      { acc with emails_sent := acc.emails_sent + 1 }
    else acc

def process_nurturing_aux (env : DeliveryEnv) :
    List NLead → NurturingSummary → NurturingSummary × List LeadResult
  | [], acc => (acc, [])
  | lead :: rest, acc =>
    let r := processOneLead env lead
    let res := process_nurturing_aux env rest (tallyLead acc r)
    (res.1, r :: res.2)

/-- Embedding of `process_nurturing(leads)` (lines 66–112): iterate the population in
order, with per-lead exception isolation; returns the summary counters and
(for specification purposes) the per-lead outcome log. -/
def process_nurturing (env : DeliveryEnv) (leads : List NLead) :
    NurturingSummary × List LeadResult :=
  process_nurturing_aux env leads {}

/-- A lead whose hot-and-stale rule fires on the WhatsApp channel. -/
def leadA : NLead :=
  { id := "lead-1", phone := "600111222", score := 70, last_contact := .daysAgo 3 }

/-- A delivery environment in which every WhatsApp send fails. -/
def envWaFail : DeliveryEnv := { waOk := fun _ => false }

/-! ### `src/tools/database.py` — store adapters -/

/-- Embedding of `get_lead_by_phone(phone)`: the outcome of the Supabase call (`.ok` rows or
`.error` for any raised exception) → `data[0] if data else None`; every
exception is caught and becomes `None`. -/
def get_lead_by_phone {α : Type} (res : Except String (List α)) : Option α :=
  match res with
  | .ok data => data.head?
  | .error _ => none

/-- Embedding of `get_lead_by_id(lead_id)`: same catch-all shape. -/
def get_lead_by_id {α : Type} (res : Except String (List α)) : Option α :=
  match res with
  | .ok data => data.head?
  | .error _ => none

/-- Embedding of `create_lead(data)`. -/
def create_lead {α : Type} (res : Except String (List α)) : Option α :=
  match res with
  | .ok data => data.head?
  | .error _ => none

/-- Embedding of `update_lead(lead_id, data)`. -/
def update_lead {α : Type} (res : Except String (List α)) : Option α :=
  match res with
  | .ok data => data.head?
  | .error _ => none

/-- Embedding of `get_all_leads(...)`: list-returning read — `result.data or []`, any
exception → `[]`. -/
def get_all_leads {α : Type} (res : Except String (List α)) : List α :=
  match res with
  | .ok data => data
  | .error _ => []

/-- Embedding of `get_conversation_by_lead(lead_id, channel)`. -/
def get_conversation_by_lead {α : Type} (res : Except String (List α)) : Option α :=
  match res with
  | .ok data => data.head?
  | .error _ => none

/-- Embedding of `upsert_conversation(conversation_id, data)`: update when an id is
given, insert otherwise; both arms end in `data[0] if data else None` and
the one `except` catches either call. -/
def upsert_conversation {α : Type} (conversation_id : Option String)
    (res : Except String (List α)) : Option α :=
  match conversation_id with
  | some _ =>
    match res with
    | .ok data => data.head?
    | .error _ => none
  | none =>
    match res with
    | .ok data => data.head?
    | .error _ => none

/-- Embedding of `create_appointment(data)`. -/
def create_appointment {α : Type} (res : Except String (List α)) : Option α :=
  match res with
  | .ok data => data.head?
  | .error _ => none

/-- Embedding of `get_appointments_by_lead(lead_id)`: list-returning read. -/
def get_appointments_by_lead {α : Type} (res : Except String (List α)) : List α :=
  match res with
  | .ok data => data
  | .error _ => []

/-- Embedding of `update_appointment(appointment_id, data)`. -/
def update_appointment {α : Type} (res : Except String (List α)) : Option α :=
  match res with
  | .ok data => data.head?
  | .error _ => none

/-- Embedding of `create_task(data)`. -/
def create_task {α : Type} (res : Except String (List α)) : Option α :=
  match res with
  | .ok data => data.head?
  | .error _ => none

/-- Embedding of `get_pending_tasks(assigned_to)`: list-returning read. -/
def get_pending_tasks {α : Type} (res : Except String (List α)) : List α :=
  match res with
  | .ok data => data
  | .error _ => []

/-! ### `src/tools/conversation_manager.py` — conversation cache -/

/-- A message as kept in a cached conversation. -/
structure MMessage where
  role : String
  content : String
deriving DecidableEq, Repr

/-- The `Conversation` model fields the manager uses. -/
structure MConversation where
  id : Option String := none
  lead_id : String
  channel : String
  messages : List MMessage := []
  summary : Option String := none
deriving DecidableEq, Repr

/-- A conversation row as returned by the store. -/
structure DbConvRow where
  id : String
  messages : List MMessage := []
  summary : Option String := none
deriving DecidableEq, Repr

/-- A row returned by the conversation upsert (`result.get("id")`). -/
structure SavedRow where
  id : Option String := none
deriving DecidableEq, Repr

/-- Embedding of `cache_key = f"{lead_id}_{channel.value}"`. -/
def cache_key (lead_id channel : String) : String :=
  lead_id ++ "_" ++ channel

/-- The module-level `_active_conversations` dict.  A Python dict
assignment is modelled by prepending the entry; `List.lookup` takes the
most recent binding, matching dict semantics for the keys we touch. -/
structure ConvCache where
  entries : List (String × MConversation) := []
deriving Repr

/-- Embedding of `get_or_create_conversation(lead_id, channel)` (lines 23–56): cache
first, then the store, then a fresh empty conversation; the result is put
in the cache when it was not there.  The third component records whether
the store was consulted. -/
def get_or_create_conversation (db : String → String → Option DbConvRow)
    (lead_id channel : String) (st : ConvCache) :
    MConversation × ConvCache × Bool :=
  let key := cache_key lead_id channel
  match st.entries.lookup key with
  | some conv => (conv, st, false)
  | none =>
    let conversation : MConversation :=
      match db lead_id channel with
      | some row =>
        { id := some row.id, lead_id := lead_id, channel := channel
          messages := row.messages, summary := row.summary }
      | none =>
        { lead_id := lead_id, channel := channel, messages := [] }
    (conversation, ⟨(key, conversation) :: st.entries⟩, true)

/-- Embedding of `_save_conversation(conversation)` (lines 112–134): persist via
`upsert_conversation`; on a fresh conversation a successful insert back-
fills the id.  A failed persist (`.error`) leaves the object untouched. -/
def save_conversation (persist : Except String (List SavedRow))
    (conv : MConversation) : MConversation :=
  let result := upsert_conversation conv.id persist
  match result, conv.id with
  | some r, none => { conv with id := r.id }
  | _, _ => conv

/-- Embedding of `add_message(lead_id, role, content, channel)` (lines 59–84): get or
create the conversation, append the message in memory, then persist.  The
Python code mutates the very object held by the cache, so the embedding
re-points the cache entry at the updated conversation. -/
def add_message (db : String → String → Option DbConvRow)
    (persist : Except String (List SavedRow))
    (lead_id role content channel : String) (st : ConvCache) :
    MConversation × ConvCache :=
  let r := get_or_create_conversation db lead_id channel st
  let conversation := { r.1 with messages := r.1.messages ++ [⟨role, content⟩] }
  let conversation := save_conversation persist conversation
  (conversation, ⟨(cache_key lead_id channel, conversation) :: r.2.1.entries⟩)

-- ───────────────────── helper lemmas ─────────────────────

lemma ite_int_nonneg (c : Prop) [Decidable c] (k : Int) (hk : 0 ≤ k) :
    0 ≤ if c then k else 0 := by
  split <;> simp [hk]

lemma interestPoints_nonneg (s : String) : 0 ≤ interestPoints s := by
  unfold interestPoints
  split_ifs <;> norm_num

lemma fillField_of_ne_none {α : Type} (cur new : Option α) (h : cur ≠ none) :
    fillField cur new = cur := by
  cases cur
  · exact absurd rfl h
  · cases new <;> rfl

lemma fillField_of_none_new {α : Type} (cur : Option α) : fillField cur none = cur := by
  cases cur <;> rfl

lemma mergeName_of_truthy (cur new : Option String) (h : truthyStr cur = true) :
    mergeName cur new = cur := by
  unfold mergeName
  rw [h]
  simp

lemma urgency_pts_nonneg (u : Option String) :
    0 ≤ if truthyStr u then
          (10 : Int) + (if u = some "inmediata" ∨ u = some "1-3 meses" then 10 else 0)
        else 0 := by
  split
  · exact add_nonneg (by norm_num) (ite_int_nonneg _ _ (by norm_num))
  · norm_num

lemma extractedPoints_nonneg (e : Option Extraction) :
    0 ≤ (match e with
      | some e =>
        if e.nonempty = true then
          interestPoints (e.interest_level.getD "bajo")
          + (if e.wants_visit = true then (15 : Int) else 0)
        else 0
      | none => 0) := by
  rcases e with _ | e
  · norm_num
  · dsimp only
    split
    · exact add_nonneg (interestPoints_nonneg _) (ite_int_nonneg _ _ (by norm_num))
    · norm_num

lemma calculate_lead_score_nonneg (l : Lead) (e : Option Extraction) :
    0 ≤ calculate_lead_score l e := by
  unfold calculate_lead_score
  refine le_min ?_ (by norm_num)
  repeat' apply add_nonneg
  all_goals
    first
    | exact urgency_pts_nonneg _
    | exact extractedPoints_nonneg _
    | exact ite_int_nonneg _ _ (by norm_num)

lemma calculate_lead_score_le_100 (l : Lead) (e : Option Extraction) :
    calculate_lead_score l e ≤ 100 := by
  unfold calculate_lead_score
  exact min_le_right _ _

-- ───────────────────── C3 ─────────────────────

/-- C3: for every lead and extraction input, `calculate_lead_score` stays
within [0, 100], and `get_score_label` assigns tiers exactly at the fixed
threshold boundaries: 25 → curioso (cold), 26 → interesado (warm),
50 → interesado, 51 → caliente (hot), 75 → caliente, 76 → listo (ready). -/
theorem score_in_range_and_label_boundaries :
    (∀ (l : Lead) (e : Option Extraction),
      0 ≤ calculate_lead_score l e ∧ calculate_lead_score l e ≤ 100) ∧
    get_score_label 25 = LeadScore.curioso ∧
    get_score_label 26 = LeadScore.interesado ∧
    get_score_label 50 = LeadScore.interesado ∧
    get_score_label 51 = LeadScore.caliente ∧
    get_score_label 75 = LeadScore.caliente ∧
    get_score_label 76 = LeadScore.listo := by
  refine ⟨fun l e => ⟨calculate_lead_score_nonneg l e, calculate_lead_score_le_100 l e⟩,
    ?_, ?_, ?_, ?_, ?_, ?_⟩ <;> decide

-- ───────────────────── C2 (counterexample) ─────────────────────

/-- C2 counterexample: the numeric score DOES decrease across successive
qualification passes.  A first pass whose extraction carries strong
transient signals (`interest_level = "muy alto"`, `wants_visit = true`)
yields score 30; a second pass whose extraction is the empty dict yields
score 0, strictly below the previous score. -/
theorem score_decreases_across_passes :
    ((update_lead_from_extraction
        (update_lead_from_extraction freshLead highInterestExtraction).lead
        emptyExtraction).lead).score
      < ((update_lead_from_extraction freshLead highInterestExtraction).lead).score := by
  decide

-- ───────────────────── C2 (amended) ─────────────────────

lemma ite_le_ite_of_imp {c d : Prop} [Decidable c] [Decidable d] (k : Int)
    (hk : 0 ≤ k) (h : c → d) :
    (if c then k else 0) ≤ if d then k else 0 := by
  split
  · rename_i hc
    rw [if_pos (h hc)]
  · exact ite_int_nonneg _ _ hk

lemma truthyStr_ne_none {cur : Option String} (h : truthyStr cur = true) :
    cur ≠ none := by
  cases cur <;> simp_all [truthyStr]

lemma truthyInt_ne_none {cur : Option Int} (h : truthyInt cur = true) :
    cur ≠ none := by
  cases cur <;> simp_all [truthyInt]

lemma truthyStr_fill_imp (cur new : Option String) :
    truthyStr cur = true → truthyStr (fillField cur new) = true := by
  intro h
  rw [fillField_of_ne_none _ _ (truthyStr_ne_none h)]
  exact h

lemma truthyInt_fill_imp (cur new : Option Int) :
    truthyInt cur = true → truthyInt (fillField cur new) = true := by
  intro h
  rw [fillField_of_ne_none _ _ (truthyInt_ne_none h)]
  exact h

lemma budget_fill_imp (a b na nb : Option Int) :
    (truthyInt a || truthyInt b) = true →
      (truthyInt (fillField a na) || truthyInt (fillField b nb)) = true := by
  intro h
  simp only [Bool.or_eq_true] at h ⊢
  rcases h with h | h
  · exact Or.inl (truthyInt_fill_imp _ _ h)
  · exact Or.inr (truthyInt_fill_imp _ _ h)

lemma urgency_fill_le (u new : Option String) :
    (if truthyStr u then
      (10 : Int) + (if u = some "inmediata" ∨ u = some "1-3 meses" then 10 else 0)
    else 0)
      ≤ (if truthyStr (fillField u new) then
          (10 : Int) + (if fillField u new = some "inmediata" ∨ fillField u new = some "1-3 meses"
                        then 10 else 0)
        else 0) := by
  by_cases h : truthyStr u = true
  · rw [fillField_of_ne_none _ _ (truthyStr_ne_none h)]
  · rw [if_neg h]
    exact urgency_pts_nonneg _

lemma name_merge_le (nm new : Option String) :
    (if truthyStr nm then (5 : Int) else 0)
      ≤ if truthyStr (mergeName nm new) then 5 else 0 := by
  by_cases h : truthyStr nm = true
  · rw [mergeName_of_truthy _ _ h]
  · rw [if_neg h]
    exact ite_int_nonneg _ _ (by norm_num)

/-- C2 amended: the score can only grow through what a pass persists — a
qualification pass never lowers the score as recomputed against any fixed
extraction signal.  In particular two successive passes whose extraction
results carry the same transient signals give a non-decreasing score.  (The
stored score itself CAN decrease across passes when the later extraction
carries weaker `interest_level` / `wants_visit` signals, as the
counterexample shows: the transient bonus is re-derived each pass.) -/
theorem score_monotone_under_merge (l : Lead) (e1 : Extraction) (e : Option Extraction) :
    calculate_lead_score l e ≤ calculate_lead_score (update_lead_from_extraction l e1).lead e := by
  have hop : (update_lead_from_extraction l e1).lead.preferences.operation
      = fillField l.preferences.operation e1.operation := rfl
  have hpt : (update_lead_from_extraction l e1).lead.preferences.property_type
      = fillField l.preferences.property_type e1.property_type := rfl
  have hzo : (update_lead_from_extraction l e1).lead.preferences.zone
      = fillField l.preferences.zone e1.zone := rfl
  have hmx : (update_lead_from_extraction l e1).lead.preferences.max_budget
      = fillField l.preferences.max_budget e1.max_budget := rfl
  have hmn : (update_lead_from_extraction l e1).lead.preferences.min_budget
      = fillField l.preferences.min_budget e1.min_budget := rfl
  have hbe : (update_lead_from_extraction l e1).lead.preferences.bedrooms
      = fillField l.preferences.bedrooms e1.bedrooms := rfl
  have hur : (update_lead_from_extraction l e1).lead.preferences.urgency
      = fillField l.preferences.urgency e1.urgency := rfl
  have hpu : (update_lead_from_extraction l e1).lead.preferences.purpose
      = fillField l.preferences.purpose e1.purpose := rfl
  have hna : (update_lead_from_extraction l e1).lead.name
      = mergeName l.name e1.name := rfl
  have hti : (update_lead_from_extraction l e1).lead.total_interactions
      = l.total_interactions := rfl
  simp only [calculate_lead_score]
  rw [hop, hpt, hzo, hmx, hmn, hbe, hur, hpu, hna, hti]
  refine min_le_min ?_ le_rfl
  refine add_le_add (add_le_add (add_le_add (add_le_add (add_le_add (add_le_add
    (add_le_add (add_le_add (add_le_add (add_le_add ?_ ?_) ?_) ?_) ?_) ?_) ?_) ?_)
    le_rfl) le_rfl) le_rfl
  · exact ite_le_ite_of_imp 10 (by norm_num) (truthyStr_fill_imp _ _)
  · exact ite_le_ite_of_imp 10 (by norm_num) (truthyStr_fill_imp _ _)
  · exact ite_le_ite_of_imp 15 (by norm_num) (truthyStr_fill_imp _ _)
  · exact ite_le_ite_of_imp 15 (by norm_num) (budget_fill_imp _ _ _ _)
  · exact ite_le_ite_of_imp 5 (by norm_num) (truthyInt_fill_imp _ _)
  · exact urgency_fill_le _ _
  · exact ite_le_ite_of_imp 5 (by norm_num) (truthyStr_fill_imp _ _)
  · exact name_merge_le _ _

-- ───────────────────── C5 (counterexample) ─────────────────────

/-- C5 counterexample: a lead whose score is already at or above the hot
threshold before the pass, and whose pass leaves the score unchanged (no
crossing occurs), still gets a new high-priority follow-up task: the code
creates the task on every pass with `score >= LEAD_SCORE_HOT`, not only on
crossing into hot. -/
theorem hot_task_created_without_crossing :
    LEAD_SCORE_HOT ≤ hotLead.score ∧
    (update_lead_from_extraction hotLead emptyExtraction).lead.score = hotLead.score ∧
    (update_lead_from_extraction hotLead emptyExtraction).hotTaskCreated = true := by
  decide

/-- C5 amended: a qualification pass creates the high-priority follow-up
task exactly when the recomputed (stored) score is at or above the hot
threshold — regardless of the score before the pass. -/
theorem hot_task_iff_score_hot (l : Lead) (e : Extraction) :
    (update_lead_from_extraction l e).hotTaskCreated = true ↔
      LEAD_SCORE_HOT ≤ (update_lead_from_extraction l e).lead.score := by
  simp only [update_lead_from_extraction]
  simp [ge_iff_le]

-- ───────────────────── C4 ─────────────────────

/-- C4: the lifecycle update of a qualification pass: a lead still in the
initial status `nuevo` moves to `cualificado` when the recomputed score
reaches the hot threshold, to `contactado` when it reaches the warm
threshold, and otherwise stays `nuevo`; a lead whose status is already
beyond `nuevo` keeps its status unchanged (never regressed or advanced). -/
theorem lifecycle_update (l : Lead) (e : Extraction) :
    (l.status = LeadStatus.nuevo →
      (update_lead_from_extraction l e).lead.status =
        (if LEAD_SCORE_HOT ≤ (update_lead_from_extraction l e).lead.score then
          LeadStatus.cualificado
        else if LEAD_SCORE_WARM ≤ (update_lead_from_extraction l e).lead.score then
          LeadStatus.contactado
        else LeadStatus.nuevo)) ∧
    (l.status ≠ LeadStatus.nuevo →
      (update_lead_from_extraction l e).lead.status = l.status) := by
  constructor
  · intro h
    simp only [update_lead_from_extraction, h, ge_iff_le, and_true]
  · intro h
    simp only [update_lead_from_extraction, ge_iff_le]
    split
    · exact absurd (by tauto) h
    · split
      · exact absurd (by tauto) h
      · rfl

-- ───────────────────── C1 ─────────────────────

/-- Generic preservation over a fold of qualification passes: any
lens into the lead whose single-pass behaviour is `fillField` keeps its
value across every sequence of extractions once it is non-`None`. -/
lemma applyExtractions_preserves {α : Type} (get : Lead → Option α)
    (sel : Extraction → Option α)
    (hstep : ∀ (l : Lead) (e : Extraction),
      get (update_lead_from_extraction l e).lead = fillField (get l) (sel e)) :
    ∀ (es : List Extraction) (l : Lead),
      get l ≠ none → get (applyExtractions l es) = get l := by
  intro es
  induction es with
  | nil => intro l _; rfl
  | cons e es ih =>
    intro l h
    have h1 : get (update_lead_from_extraction l e).lead = get l := by
      rw [hstep, fillField_of_ne_none _ _ h]
    have h2 : applyExtractions l (e :: es)
        = applyExtractions (update_lead_from_extraction l e).lead es := rfl
    rw [h2, ih _ (by rw [h1]; exact h), h1]

/-- Same preservation for the name, whose merge guard is Python
truthiness rather than an `is None` test. -/
lemma applyExtractions_preserves_name :
    ∀ (es : List Extraction) (l : Lead),
      truthyStr l.name = true → (applyExtractions l es).name = l.name := by
  intro es
  induction es with
  | nil => intro l _; rfl
  | cons e es ih =>
    intro l h
    have h1 : (update_lead_from_extraction l e).lead.name = l.name := by
      have : (update_lead_from_extraction l e).lead.name = mergeName l.name e.name := rfl
      rw [this, mergeName_of_truthy _ _ h]
    have h2 : applyExtractions l (e :: es)
        = applyExtractions (update_lead_from_extraction l e).lead es := rfl
    rw [h2, ih _ (by rw [h1]; exact h), h1]

/-- C1: the merge applied by `update_lead_from_extraction` is fill-only —
over any sequence of extraction passes, every preference field that is
already set (non-`None`), and a truthy (set) name, keeps its current value
no matter what later extractions return for that field. -/
theorem fill_only_merge_invariant (l : Lead) (es : List Extraction) :
    (l.preferences.operation ≠ none →
      (applyExtractions l es).preferences.operation = l.preferences.operation) ∧
    (l.preferences.property_type ≠ none →
      (applyExtractions l es).preferences.property_type = l.preferences.property_type) ∧
    (l.preferences.zone ≠ none →
      (applyExtractions l es).preferences.zone = l.preferences.zone) ∧
    (l.preferences.min_budget ≠ none →
      (applyExtractions l es).preferences.min_budget = l.preferences.min_budget) ∧
    (l.preferences.max_budget ≠ none →
      (applyExtractions l es).preferences.max_budget = l.preferences.max_budget) ∧
    (l.preferences.min_sqm ≠ none →
      (applyExtractions l es).preferences.min_sqm = l.preferences.min_sqm) ∧
    (l.preferences.max_sqm ≠ none →
      (applyExtractions l es).preferences.max_sqm = l.preferences.max_sqm) ∧
    (l.preferences.bedrooms ≠ none →
      (applyExtractions l es).preferences.bedrooms = l.preferences.bedrooms) ∧
    (l.preferences.bathrooms ≠ none →
      (applyExtractions l es).preferences.bathrooms = l.preferences.bathrooms) ∧
    (l.preferences.parking ≠ none →
      (applyExtractions l es).preferences.parking = l.preferences.parking) ∧
    (l.preferences.urgency ≠ none →
      (applyExtractions l es).preferences.urgency = l.preferences.urgency) ∧
    (l.preferences.purpose ≠ none →
      (applyExtractions l es).preferences.purpose = l.preferences.purpose) ∧
    (l.preferences.notes ≠ none →
      (applyExtractions l es).preferences.notes = l.preferences.notes) ∧
    (truthyStr l.name = true → (applyExtractions l es).name = l.name) :=
  ⟨applyExtractions_preserves (fun x => x.preferences.operation)
      (fun e => e.operation) (fun _ _ => rfl) es l,
   applyExtractions_preserves (fun x => x.preferences.property_type)
      (fun e => e.property_type) (fun _ _ => rfl) es l,
   applyExtractions_preserves (fun x => x.preferences.zone)
      (fun e => e.zone) (fun _ _ => rfl) es l,
   applyExtractions_preserves (fun x => x.preferences.min_budget)
      (fun e => e.min_budget) (fun _ _ => rfl) es l,
   applyExtractions_preserves (fun x => x.preferences.max_budget)
      (fun e => e.max_budget) (fun _ _ => rfl) es l,
   applyExtractions_preserves (fun x => x.preferences.min_sqm)
      (fun e => e.min_sqm) (fun _ _ => rfl) es l,
   applyExtractions_preserves (fun x => x.preferences.max_sqm)
      (fun _ => none) (fun _ _ => (fillField_of_none_new _).symm) es l,
   applyExtractions_preserves (fun x => x.preferences.bedrooms)
      (fun e => e.bedrooms) (fun _ _ => rfl) es l,
   applyExtractions_preserves (fun x => x.preferences.bathrooms)
      (fun e => e.bathrooms) (fun _ _ => rfl) es l,
   applyExtractions_preserves (fun x => x.preferences.parking)
      (fun e => e.parking) (fun _ _ => rfl) es l,
   applyExtractions_preserves (fun x => x.preferences.urgency)
      (fun e => e.urgency) (fun _ _ => rfl) es l,
   applyExtractions_preserves (fun x => x.preferences.purpose)
      (fun e => e.purpose) (fun _ _ => rfl) es l,
   applyExtractions_preserves (fun x => x.preferences.notes)
      (fun _ => none) (fun _ _ => (fillField_of_none_new _).symm) es l,
   applyExtractions_preserves_name es l⟩

/-- Witness for C1 at a concrete input: a fully-known lead run through two
conflicting extraction passes keeps every field and the name. -/
theorem fill_only_merge_invariant_witness :
    (applyExtractions fullLead [conflictingExtraction, highInterestExtraction]).preferences
      = fullLead.preferences ∧
    (applyExtractions fullLead [conflictingExtraction, highInterestExtraction]).name
      = fullLead.name := by
  obtain ⟨h1, h2, h3, h4, h5, h6, h7, h8, h9, h10, h11, h12, h13, h14⟩ :=
    fill_only_merge_invariant fullLead [conflictingExtraction, highInterestExtraction]
  refine ⟨?_, h14 (by decide)⟩
  have e1 := h1 (by decide)
  have e2 := h2 (by decide)
  have e3 := h3 (by decide)
  have e4 := h4 (by decide)
  have e5 := h5 (by decide)
  have e6 := h6 (by decide)
  have e7 := h7 (by decide)
  have e8 := h8 (by decide)
  have e9 := h9 (by decide)
  have e10 := h10 (by decide)
  have e11 := h11 (by decide)
  have e12 := h12 (by decide)
  have e13 := h13 (by decide)
  cases hp : (applyExtractions fullLead [conflictingExtraction, highInterestExtraction]).preferences
  simp only [hp] at e1 e2 e3 e4 e5 e6 e7 e8 e9 e10 e11 e12 e13
  simp [fullLead, e1, e2, e3, e4, e5, e6, e7, e8, e9, e10, e11, e12, e13]

-- ───────────────────── C6 (code bug) ─────────────────────

/-- C6: the dispatch does NOT always return a descriptive string.  On
`get_property_details` and `calculate_mortgage`, the code subscripts
`arguments["reference"]` / `arguments["price"]`, so an argument payload
missing those keys — in particular the empty dict that malformed JSON
coalesces to — raises `KeyError`, which propagates through
`_generate_with_tools` and aborts the round (last conjunct).  Unknown
action names, by contrast, do come back as a descriptive string. -/
theorem dispatch_raises_on_missing_required_key :
    execute_tool_call env0 "get_property_details" emptyToolArgs
      = .error "KeyError: reference" ∧
    execute_tool_call env0 "calculate_mortgage" emptyToolArgs
      = .error "KeyError: price" ∧
    execute_tool_call env0 "accion_rara" emptyToolArgs
      = .ok "Función accion_rara no implementada." ∧
    (generate_with_tools env0 badDetailsOracle 3).1
      = .error "KeyError: reference" :=
  ⟨rfl, rfl, rfl, rfl⟩

-- ───────────────────── C7 ─────────────────────

lemma generate_aux_calls_le (env : ToolEnv) (oracle : Nat → ModelResponse) :
    ∀ (fuel calls : Nat),
      (generate_with_tools_aux env oracle fuel calls).2 ≤ calls + fuel := by
  intro fuel
  induction fuel with
  | zero =>
    intro calls
    simp [generate_with_tools_aux]
  | succ n ih =>
    intro calls
    simp only [generate_with_tools_aux]
    cases h : oracle calls with
    | err429 =>
      exact le_trans (ih (calls + 1)) (by omega)
    | errOther =>
      simp
    | msg ftc content tcs =>
      dsimp only
      split
      · cases hx : execToolCalls env tcs with
        | ok u => exact le_trans (ih (calls + 1)) (by omega)
        | error e => simp
      · simp

lemma generate_aux_fallback (env : ToolEnv) (oracle : Nat → ModelResponse) :
    ∀ (fuel calls : Nat),
      (∀ i, calls ≤ i → i < calls + fuel → roundContinues env (oracle i) = true) →
      (generate_with_tools_aux env oracle fuel calls).1 = .ok stillProcessingFallback := by
  intro fuel
  induction fuel with
  | zero =>
    intro calls _
    simp [generate_with_tools_aux]
  | succ n ih =>
    intro calls h
    have hc : roundContinues env (oracle calls) = true :=
      h calls (le_refl _) (by omega)
    simp only [generate_with_tools_aux]
    cases horc : oracle calls with
    | err429 =>
      exact ih (calls + 1) (fun i h1 h2 => h i (by omega) (by omega))
    | errOther =>
      rw [horc] at hc
      simp [roundContinues] at hc
    | msg ftc content tcs =>
      rw [horc] at hc
      simp only [roundContinues, Bool.and_eq_true] at hc
      obtain ⟨⟨hftc, hne⟩, hexec⟩ := hc
      dsimp only
      rw [if_pos (by rw [hftc, hne]; rfl)]
      cases hx : execToolCalls env tcs with
      | ok u =>
        exact ih (calls + 1) (fun i h1 h2 => h i (by omega) (by omega))
      | error e =>
        rw [hx] at hexec
        simp at hexec

/-- C7: a single invocation of the tool-calling loop issues at most
`maxRounds` reasoning-service calls for any oracle (including oracles
that always request actions or always rate-limit), and whenever every
budgeted round continues (action requests or 429 retries) without
producing a final text, the loop returns the fixed "still processing"
fallback instead of failing. -/
theorem tool_loop_bounded_rounds_and_fallback (env : ToolEnv)
    (oracle : Nat → ModelResponse) (maxRounds : Nat) :
    (generate_with_tools env oracle maxRounds).2 ≤ maxRounds ∧
    ((∀ i, i < maxRounds → roundContinues env (oracle i) = true) →
      (generate_with_tools env oracle maxRounds).1 = .ok stillProcessingFallback) :=
  ⟨by simpa using generate_aux_calls_le env oracle maxRounds 0,
   fun h => generate_aux_fallback env oracle maxRounds 0
     (fun i _ h2 => h i (by omega))⟩

/-- Witness for C7: with the default budget of 3 and an oracle that
requests an action on every round, the loop makes at most 3 service calls
and returns the fixed fallback. -/
theorem tool_loop_bounded_rounds_and_fallback_witness :
    (generate_with_tools env0 alwaysToolsOracle 3).2 ≤ 3 ∧
    (generate_with_tools env0 alwaysToolsOracle 3).1 = .ok stillProcessingFallback :=
  ⟨(tool_loop_bounded_rounds_and_fallback env0 alwaysToolsOracle 3).1,
   (tool_loop_bounded_rounds_and_fallback env0 alwaysToolsOracle 3).2
     (fun _ _ => rfl)⟩

/-- Witness for C4 at concrete inputs: a fresh (`nuevo`) lead follows the
threshold rule, and a lead in `negociacion` keeps its status. -/
theorem lifecycle_update_witness :
    ((update_lead_from_extraction freshLead highInterestExtraction).lead.status =
      (if LEAD_SCORE_HOT ≤ (update_lead_from_extraction freshLead highInterestExtraction).lead.score then
        LeadStatus.cualificado
      else if LEAD_SCORE_WARM ≤ (update_lead_from_extraction freshLead highInterestExtraction).lead.score then
        LeadStatus.contactado
      else LeadStatus.nuevo)) ∧
    (update_lead_from_extraction busyLead emptyExtraction).lead.status = busyLead.status :=
  ⟨(lifecycle_update freshLead highInterestExtraction).1 (by decide),
   (lifecycle_update busyLead emptyExtraction).2 (by decide)⟩

-- ───────────────────── C8 (counterexample + amended) ─────────────────────

lemma process_nurturing_aux_results (env : DeliveryEnv) :
    ∀ (leads : List NLead) (acc : NurturingSummary),
      (process_nurturing_aux env leads acc).2 = leads.map (processOneLead env) := by
  intro leads
  induction leads with
  | nil => intro acc; rfl
  | cons l rest ih =>
    intro acc
    simp [process_nurturing_aux, ih]

lemma tallyLead_errors (acc : NurturingSummary) (r : LeadResult) :
    (tallyLead acc r).errors
      = acc.errors + (match r with | .errored => 1 | _ => 0) := by
  cases r with
  | errored => rfl
  | noAction => simp [tallyLead]
  | acted a o =>
    simp only [tallyLead]
    split <;> split <;> rfl

lemma processOneLead_errored_count (env : DeliveryEnv) (l : NLead) :
    (match processOneLead env l with | LeadResult.errored => 1 | _ => 0)
      = (if isMalformedLastContact l.last_contact then 1 else 0) := by
  cases h : l.last_contact with
  | malformed => simp [processOneLead, daysSince, h, isMalformedLastContact]
  | absent =>
    cases he : evaluate_nurturing_rules 999 l.score l.total_interactions <;>
      simp [processOneLead, daysSince, h, he, isMalformedLastContact]
  | daysAgo d =>
    cases he : evaluate_nurturing_rules d l.score l.total_interactions <;>
      simp [processOneLead, daysSince, h, he, isMalformedLastContact]

lemma process_nurturing_aux_errors (env : DeliveryEnv) :
    ∀ (leads : List NLead) (acc : NurturingSummary),
      (process_nurturing_aux env leads acc).1.errors
        = acc.errors + leads.countP (fun l => isMalformedLastContact l.last_contact) := by
  intro leads
  induction leads with
  | nil => intro acc; simp [process_nurturing_aux]
  | cons l rest ih =>
    intro acc
    simp only [process_nurturing_aux]
    rw [ih, tallyLead_errors, List.countP_cons, processOneLead_errored_count]
    omega

/-- C8 counterexample: a WhatsApp delivery failure does NOT increment the
returned `errors` count.  For a hot-and-stale lead whose WhatsApp send
fails, `process_nurturing` records the failed attempt
(`waFailed = true`) yet returns `errors = 0`: the per-channel
`try/except` inside `_execute_nurturing_action` swallows the failure
before the error counter of the loop can see it. -/
theorem delivery_failure_not_counted :
    (process_nurturing envWaFail [leadA]).2
      = [.acted ⟨"hot_lead_urgency", "whatsapp", "hot_lead"⟩
          ⟨true, true, false, false⟩] ∧
    (process_nurturing envWaFail [leadA]).1.errors = 0 :=
  ⟨rfl, rfl⟩

/-- C8 amended: every lead in the list is processed and gets its own
outcome regardless of any delivery failures elsewhere (first conjunct);
the `errors` counter counts exactly the leads whose per-lead processing
raised — i.e. those with a malformed `last_contact` timestamp — and is
untouched by delivery failures (second conjunct); and a failure or change
of the WhatsApp channel never affects whether (or how) the email channel
is attempted for the same lead, and vice versa (last two conjuncts). -/
theorem nurturing_failure_isolation (env : DeliveryEnv) (leads : List NLead) :
    (process_nurturing env leads).2 = leads.map (processOneLead env) ∧
    (process_nurturing env leads).1.errors
      = leads.countP (fun l => isMalformedLastContact l.last_contact) ∧
    (∀ (l : NLead) (a : NAction) (f : String → Bool),
      (execute_nurturing_action { env with waOk := f } l a).emailAttempted
        = (execute_nurturing_action env l a).emailAttempted ∧
      (execute_nurturing_action { env with waOk := f } l a).emailFailed
        = (execute_nurturing_action env l a).emailFailed) ∧
    (∀ (l : NLead) (a : NAction) (g : String → Bool),
      (execute_nurturing_action { env with emailOk := g } l a).waAttempted
        = (execute_nurturing_action env l a).waAttempted ∧
      (execute_nurturing_action { env with emailOk := g } l a).waFailed
        = (execute_nurturing_action env l a).waFailed) :=
  ⟨process_nurturing_aux_results env leads {},
   by simpa using process_nurturing_aux_errors env leads {},
   fun l a f => ⟨rfl, rfl⟩,
   fun l a g => ⟨rfl, rfl⟩⟩

-- ───────────────────── C9 ─────────────────────

lemma save_conversation_error (e : String) (conv : MConversation) :
    save_conversation (.error e) conv = conv := by
  unfold save_conversation upsert_conversation
  rcases hc : conv.id with _ | cid <;> simp [hc]

/-- C9: every store adapter degrades on client failure — any raised
exception is caught and becomes `none` (or `[]` for list-returning
reads), never a propagated exception; consequently the in-memory append
performed by `add_message` succeeds even when the persist step fails
(last conjunct). -/
theorem store_adapters_degrade_on_failure :
    (∀ (α : Type) (e : String), get_lead_by_phone (α := α) (.error e) = none) ∧
    (∀ (α : Type) (e : String), get_lead_by_id (α := α) (.error e) = none) ∧
    (∀ (α : Type) (e : String), create_lead (α := α) (.error e) = none) ∧
    (∀ (α : Type) (e : String), update_lead (α := α) (.error e) = none) ∧
    (∀ (α : Type) (e : String), get_all_leads (α := α) (.error e) = []) ∧
    (∀ (α : Type) (e : String), get_conversation_by_lead (α := α) (.error e) = none) ∧
    (∀ (α : Type) (cid : Option String) (e : String),
      upsert_conversation (α := α) cid (.error e) = none) ∧
    (∀ (α : Type) (e : String), create_appointment (α := α) (.error e) = none) ∧
    (∀ (α : Type) (e : String), get_appointments_by_lead (α := α) (.error e) = []) ∧
    (∀ (α : Type) (e : String), update_appointment (α := α) (.error e) = none) ∧
    (∀ (α : Type) (e : String), create_task (α := α) (.error e) = none) ∧
    (∀ (α : Type) (e : String), get_pending_tasks (α := α) (.error e) = []) ∧
    (∀ (db : String → String → Option DbConvRow)
        (lead_id role content channel : String) (st : ConvCache) (e : String),
      (add_message db (.error e) lead_id role content channel st).1.messages
        = (get_or_create_conversation db lead_id channel st).1.messages
            ++ [⟨role, content⟩]) :=
  ⟨fun _ _ => rfl, fun _ _ => rfl, fun _ _ => rfl, fun _ _ => rfl, fun _ _ => rfl,
   fun _ _ => rfl,
   fun _ cid _ => by cases cid <;> rfl,
   fun _ _ => rfl, fun _ _ => rfl, fun _ _ => rfl, fun _ _ => rfl, fun _ _ => rfl,
   fun db lead_id role content channel st e => by
    simp only [add_message]
    rw [save_conversation_error]⟩

-- ───────────────────── C10 ─────────────────────

lemma get_or_create_caches (db : String → String → Option DbConvRow)
    (lead_id channel : String) (st : ConvCache) :
    (get_or_create_conversation db lead_id channel st).2.1.entries.lookup
        (cache_key lead_id channel)
      = some (get_or_create_conversation db lead_id channel st).1 := by
  unfold get_or_create_conversation
  cases h : st.entries.lookup (cache_key lead_id channel) with
  | some conv => simp [h]
  | none => simp [h, List.lookup]

lemma get_or_create_hit (db : String → String → Option DbConvRow)
    (lead_id channel : String) (st : ConvCache) (v : MConversation)
    (h : st.entries.lookup (cache_key lead_id channel) = some v) :
    get_or_create_conversation db lead_id channel st = (v, st, false) := by
  unfold get_or_create_conversation
  dsimp only
  rw [h]

lemma cache_key_channel_inj (l c1 c2 : String) (h : c1 ≠ c2) :
    cache_key l c1 ≠ cache_key l c2 := by
  intro heq
  apply h
  have hd := congrArg String.data heq
  simp [cache_key, String.data_append] at hd
  exact String.ext hd

lemma add_message_caches (db : String → String → Option DbConvRow)
    (persist : Except String (List SavedRow))
    (lead_id role content channel : String) (st : ConvCache) :
    (add_message db persist lead_id role content channel st).2.entries.lookup
        (cache_key lead_id channel)
      = some (add_message db persist lead_id role content channel st).1 := by
  simp [add_message, List.lookup]

/-- C10: after `get_or_create_conversation` returns, the module cache maps
the (lead, channel) key to the very conversation returned; a repeated call
with the same pair returns that identical cached conversation without
consulting the store and leaves the cache unchanged; a message appended by
`add_message` is what every later read of the same pair sees; and distinct
channels for the same lead occupy distinct cache entries. -/
theorem conversation_cache_behaviour (db : String → String → Option DbConvRow)
    (lead_id channel : String) (st : ConvCache) :
    ((get_or_create_conversation db lead_id channel st).2.1.entries.lookup
        (cache_key lead_id channel)
      = some (get_or_create_conversation db lead_id channel st).1) ∧
    (get_or_create_conversation db lead_id channel
        (get_or_create_conversation db lead_id channel st).2.1
      = ((get_or_create_conversation db lead_id channel st).1,
         (get_or_create_conversation db lead_id channel st).2.1, false)) ∧
    (∀ (persist : Except String (List SavedRow)) (role content : String),
      (get_or_create_conversation db lead_id channel
          (add_message db persist lead_id role content channel st).2).1
        = (add_message db persist lead_id role content channel st).1) ∧
    (∀ c2 : String, channel ≠ c2 →
      cache_key lead_id channel ≠ cache_key lead_id c2) :=
  ⟨get_or_create_caches db lead_id channel st,
   get_or_create_hit db lead_id channel _ _ (get_or_create_caches db lead_id channel st),
   fun persist role content => by
    rw [get_or_create_hit db lead_id channel _ _
      (add_message_caches db persist lead_id role content channel st)],
   fun c2 hne => cache_key_channel_inj lead_id channel c2 hne⟩

/-- Witness for C10 at concrete inputs: an empty cache and a store with no
rows; the distinct-channel conjunct discharged for whatsapp vs email. -/
theorem conversation_cache_behaviour_witness :
    (get_or_create_conversation (fun _ _ => none) "L1" "whatsapp"
        (ConvCache.mk [])).2.1.entries.lookup (cache_key "L1" "whatsapp")
      = some (get_or_create_conversation (fun _ _ => none) "L1" "whatsapp"
          (ConvCache.mk [])).1 ∧
    (get_or_create_conversation (fun _ _ => none) "L1" "whatsapp"
        (add_message (fun _ _ => none) (.error "boom") "L1" "user" "hola" "whatsapp"
          (ConvCache.mk [])).2).1
      = (add_message (fun _ _ => none) (.error "boom") "L1" "user" "hola" "whatsapp"
          (ConvCache.mk [])).1 ∧
    cache_key "L1" "whatsapp" ≠ cache_key "L1" "email" := by
  obtain ⟨h1, _, h3, h4⟩ :=
    conversation_cache_behaviour (fun _ _ => none) "L1" "whatsapp" (ConvCache.mk [])
  exact ⟨h1, h3 (.error "boom") "user" "hola", h4 "email" (by decide)⟩

end Agente
